import Mathlib

/-!
Verification of the portfolio/ledger engine of the Finance-App repository
(`src/database/db_manager.py`, with its UI caller `src/views/trading.py`).

The engine operates, per call, on one (user, symbol) pair: it reads at most
one `portfolio` (or `crypto_portfolio`) row, optionally rewrites or deletes
it, appends at most one `transactions` row, and adjusts the user's single
`balance` scalar.  We embed the state a call can touch as `DBState` and
translate `update_portfolio` and `update_crypto_portfolio` directly,
using exact rational arithmetic in place of SQL REAL.
-/

/-- A `portfolio` row for a fixed (user, symbol): the `shares` and
`avg_price` columns read and written by `update_portfolio`. -/
structure PortfolioRow where
  shares : ℚ
  avg_price : ℚ
deriving Repr, DecidableEq

/-- A `crypto_portfolio` row for a fixed (user, symbol): the
`crypto_amount` and `avg_price` columns of `update_crypto_portfolio`. -/
structure CryptoRow where
  crypto_amount : ℚ
  avg_price : ℚ
deriving Repr, DecidableEq

/-- A `transactions` row as inserted by `update_portfolio`:
`(symbol, transaction_type, shares, price)`; `user_id` is the fixed user
and `timestamp` defaults to the insertion time. -/
structure TxRow where
  symbol : String
  transaction_type : String
  shares : ℚ
  price : ℚ
deriving Repr, DecidableEq

/-- The database state one ledger call can read or write: the equity
`portfolio` row and the `crypto_portfolio` row for the (user, symbol) at
hand (`none` when the SELECT returns no row), the user's `transactions`
rows in insertion order, and the user's `balance` column. -/
structure DBState where
  portfolio : Option PortfolioRow
  crypto_portfolio : Option CryptoRow
  transactions : List TxRow
  balance : ℚ
deriving Repr, DecidableEq

/-- `Database.update_portfolio` (src/database/db_manager.py lines 129-194),
returning the Python function's boolean result together with the state
after the call.  The BUY branch reproduces the source verbatim, including
`old_shares = existing[1]` (the avg_price column, despite the name) and
`only_new_share_price = new_shares * price`; on the early `return False`
of the SELL branch no write has been issued, so the state is returned
unchanged.  The transaction insert and the balance update run on every
path that falls through the if/else. -/
def update_portfolio (st : DBState) (symbol : String) (shares price : ℚ)
    (is_buy : Bool) : Bool × DBState :=
  let existing := st.portfolio
  let updated : Option DBState :=
    if is_buy then
      match existing with
      | some row =>
        let new_shares := row.shares + shares
        let old_shares := row.avg_price
        let only_new_share_price := new_shares * price
        let new_avg_price := (old_shares + only_new_share_price) / new_shares
        some { st with portfolio := some ⟨new_shares, new_avg_price⟩ }
      | none =>
        some { st with portfolio := some ⟨shares, price⟩ }
    else
      match existing with
      | some row =>
        if row.shares ≥ shares then
          let new_shares := row.shares - shares
          if new_shares > 0 then
            some { st with portfolio := some ⟨new_shares, row.avg_price⟩ }
          else
            some { st with portfolio := none }
        else
          none
      | none => none
  match updated with
  | none => (false, st)
  | some st1 =>
    let st2 := { st1 with
      transactions := st1.transactions ++
        [(⟨symbol, if is_buy then "BUY" else "SELL", shares, price⟩ : TxRow)] }
    let transaction_value := shares * price
    let st3 := { st2 with
      balance := st2.balance +
        (if is_buy then -transaction_value else transaction_value) }
    (true, st3)

/-- `Database.update_crypto_portfolio` (src/database/db_manager.py lines
198-237).  Unlike the equity path, this function inserts no transaction
row and never touches the balance: after the if/else it goes straight to
commit and `return True`. -/
def update_crypto_portfolio (st : DBState) (crypto_amount current_price : ℚ)
    (is_buy : Bool) : Bool × DBState :=
  let existing := st.crypto_portfolio
  if is_buy then
    match existing with
    | some row =>
      let new_amount := row.crypto_amount + crypto_amount
      let new_avg_price :=
        ((row.avg_price * row.crypto_amount) + (current_price * crypto_amount))
          / new_amount
      (true, { st with crypto_portfolio := some ⟨new_amount, new_avg_price⟩ })
    | none =>
      (true, { st with crypto_portfolio := some ⟨crypto_amount, current_price⟩ })
  else
    match existing with
    | some row =>
      if row.crypto_amount ≥ crypto_amount then
        let new_amount := row.crypto_amount - crypto_amount
        if new_amount > 0 then
          (true, { st with crypto_portfolio := some ⟨new_amount, row.avg_price⟩ })
        else
          (true, { st with crypto_portfolio := none })
      else
        (false, st)
    | none => (false, st)

/-- The buy-form submit path of the trading page
(src/views/trading.py lines 404-425): the number input admits any
`shares_to_buy ≥ 0`; if `total_share_cost > balance` the order is
rejected with an error, otherwise `update_portfolio` is invoked with
`is_buy = True`. -/
def trading_buy (st : DBState) (symbol : String)
    (shares_to_buy current_price : ℚ) : Bool × DBState :=
  let total_share_cost := shares_to_buy * current_price
  if total_share_cost > st.balance then
    (false, st)
  else
    update_portfolio st symbol shares_to_buy current_price true

/-- The shares held for the symbol: the row's `shares` column, or `0`
when no row exists. -/
def portfolioShares (st : DBState) : ℚ :=
  match st.portfolio with
  | some row => row.shares
  | none => 0

/-- Running a list of `(shares, price)` BUY orders through
`update_portfolio` in sequence. -/
def runBuys (st : DBState) (symbol : String) (orders : List (ℚ × ℚ)) : DBState :=
  orders.foldl (fun s o => (update_portfolio s symbol o.1 o.2 true).2) st

/-- The position-store invariant of the spec: a row exists only with
strictly positive quantity (absence is the `none` case). -/
def posInvEquity (st : DBState) : Prop :=
  ∀ row ∈ st.portfolio, 0 < row.shares

/-- The position-store invariant for the crypto table. -/
def posInvCrypto (st : DBState) : Prop :=
  ∀ row ∈ st.crypto_portfolio, 0 < row.crypto_amount

/-! ## Concrete states used by witnesses and counterexamples -/

/-- A state whose equity and crypto tables both hold a (10 units, avg 150)
row for the symbol at hand, with the default starting balance and an empty
transaction log. -/
def stBoth : DBState := ⟨some ⟨10, 150⟩, some ⟨10, 150⟩, [], 100000⟩

/-- A fresh-user state: no position rows, empty log, default balance. -/
def stFresh : DBState := ⟨none, none, [], 100000⟩

/-! ## Claims -/

/-- C1: `update_portfolio` on a BUY into the existing position (10 shares,
avg 150) at 5 shares @ 180 stores average cost 190, computed as
`(a0 + (q0+q)*p)/(q0+q)`, whereas the volume-weighted average the claim
(and the spec's corrected formula) require, `(q0*a0 + q*p)/(q0+q)`,
equals 160 at this input: the code diverges from the claimed formula. -/
theorem C1_buy_avg_cost_bug :
    (update_portfolio stBoth "AAPL" 5 180 true).2.portfolio = some ⟨15, 190⟩ ∧
    ((10 * 150 + 5 * 180) / (10 + 5) : ℚ) = 160 ∧ (190 : ℚ) ≠ 160 := by
  refine ⟨?_, by norm_num, by norm_num⟩
  norm_num [update_portfolio, stBoth]

/-- C2 counterexample: a crypto BUY of 1 unit @ 50000 from a fresh state
succeeds, yet the balance is not debited by quantity*price — it is left
at 100000 instead of 50000 — refuting the claim that both asset classes
adjust the balance identically. -/
theorem C2_crypto_balance_cex :
    (update_crypto_portfolio stFresh 1 50000 true).1 = true ∧
    (update_crypto_portfolio stFresh 1 50000 true).2.balance = 100000 ∧
    ¬ ((update_crypto_portfolio stFresh 1 50000 true).2.balance =
        stFresh.balance - 1 * 50000) := by
  refine ⟨?_, ?_, ?_⟩ <;> norm_num [update_crypto_portfolio, stFresh]

/-- C2 (amended): every successful equity order adjusts the balance by
exactly −quantity*price on a BUY and +quantity*price on a SELL, but the
crypto path performs no balance adjustment at all. -/
theorem C2_balance_adjustment :
    (∀ st sym (q p : ℚ) b, (update_portfolio st sym q p b).1 = true →
      (update_portfolio st sym q p b).2.balance =
        st.balance + (if b then -(q * p) else q * p)) ∧
    (∀ st (q p : ℚ) b, (update_crypto_portfolio st q p b).2.balance = st.balance) := by
  constructor
  · intro st sym q p b h
    cases b <;> cases he : st.portfolio <;>
      simp only [update_portfolio, he] at h ⊢ <;>
      split_ifs at h ⊢ <;> simp_all
  · intro st q p b
    cases b <;> cases he : st.crypto_portfolio <;>
      simp only [update_crypto_portfolio, he] <;>
      split_ifs <;> simp_all

/-- C2 witness: the amended theorem applied to a concrete successful BUY
and a concrete crypto call. -/
theorem C2_balance_adjustment_witness :
    (update_portfolio stBoth "AAPL" 5 180 true).2.balance =
      stBoth.balance + (if true then -((5 : ℚ) * 180) else 5 * 180) ∧
    (update_crypto_portfolio stBoth 5 180 true).2.balance = stBoth.balance := by
  refine ⟨C2_balance_adjustment.1 stBoth "AAPL" 5 180 true ?_,
    C2_balance_adjustment.2 stBoth 5 180 true⟩
  norm_num [update_portfolio, stBoth]

/-- C3 counterexample: a crypto BUY from a fresh state succeeds but
appends no transaction row (the log stays empty), refuting the claim
that every successful order in either asset class appends exactly one. -/
theorem C3_crypto_no_tx_cex :
    (update_crypto_portfolio stFresh 1 50000 true).1 = true ∧
    (update_crypto_portfolio stFresh 1 50000 true).2.transactions = [] ∧
    ¬ ((update_crypto_portfolio stFresh 1 50000 true).2.transactions.length =
        stFresh.transactions.length + 1) := by
  refine ⟨?_, ?_, ?_⟩ <;> simp [update_crypto_portfolio, stFresh]

/-- C3 (amended): every successful equity order appends exactly one
transaction row, whose side is `"BUY"` iff `is_buy` and whose quantity
and price are the order's arguments; a failed equity order appends none;
the crypto path never appends a transaction row at all. -/
theorem C3_transaction_log :
    (∀ st sym (q p : ℚ) b, (update_portfolio st sym q p b).1 = true →
      (update_portfolio st sym q p b).2.transactions =
        st.transactions ++ [⟨sym, if b then "BUY" else "SELL", q, p⟩]) ∧
    (∀ st sym (q p : ℚ) b, (update_portfolio st sym q p b).1 = false →
      (update_portfolio st sym q p b).2.transactions = st.transactions) ∧
    (∀ st (q p : ℚ) b,
      (update_crypto_portfolio st q p b).2.transactions = st.transactions) := by
  refine ⟨?_, ?_, ?_⟩
  · intro st sym q p b h
    cases b <;> cases he : st.portfolio <;>
      simp only [update_portfolio, he] at h ⊢ <;>
      split_ifs at h ⊢ <;> simp_all
  · intro st sym q p b h
    cases b <;> cases he : st.portfolio <;>
      simp only [update_portfolio, he] at h ⊢ <;>
      split_ifs at h ⊢ <;> simp_all
  · intro st q p b
    cases b <;> cases he : st.crypto_portfolio <;>
      simp only [update_crypto_portfolio, he] <;>
      split_ifs <;> simp_all

/-- C3 witness: the amended theorem applied to a concrete successful BUY,
a concrete failed SELL, and a concrete crypto call. -/
theorem C3_transaction_log_witness :
    (update_portfolio stBoth "AAPL" 5 180 true).2.transactions =
      stBoth.transactions ++ [⟨"AAPL", if true then "BUY" else "SELL", 5, 180⟩] ∧
    (update_portfolio stBoth "AAPL" 20 180 false).2.transactions =
      stBoth.transactions ∧
    (update_crypto_portfolio stBoth 5 180 true).2.transactions =
      stBoth.transactions := by
  refine ⟨C3_transaction_log.1 stBoth "AAPL" 5 180 true ?_,
    C3_transaction_log.2.1 stBoth "AAPL" 20 180 false ?_,
    C3_transaction_log.2.2 stBoth 5 180 true⟩
  · norm_num [update_portfolio, stBoth]
  · norm_num [update_portfolio, stBoth]

/-- C4: a SELL whose requested quantity exceeds the held quantity (with
absence counted as holding nothing) returns `false` and leaves the whole
state — position row, balance, and transaction log — exactly as before,
in both asset classes. -/
theorem C4_insufficient_sell_no_mutation (st : DBState) (sym : String) (q p : ℚ)
    (he : ∀ row ∈ st.portfolio, row.shares < q)
    (hc : ∀ row ∈ st.crypto_portfolio, row.crypto_amount < q) :
    update_portfolio st sym q p false = (false, st) ∧
    update_crypto_portfolio st q p false = (false, st) := by
  constructor
  · cases hrow : st.portfolio with
    | none => simp [update_portfolio, hrow]
    | some row =>
      have hlt := he row (by simp [hrow])
      simp [update_portfolio, hrow, not_le.mpr hlt]
  · cases hrow : st.crypto_portfolio with
    | none => simp [update_crypto_portfolio, hrow]
    | some row =>
      have hlt := hc row (by simp [hrow])
      simp [update_crypto_portfolio, hrow, not_le.mpr hlt]

/-- C4 witness: selling 20 units against 10 held fails without mutation
in both tables. -/
theorem C4_insufficient_sell_no_mutation_witness :
    update_portfolio stBoth "AAPL" 20 180 false = (false, stBoth) ∧
    update_crypto_portfolio stBoth 20 180 false = (false, stBoth) :=
  C4_insufficient_sell_no_mutation stBoth "AAPL" 20 180
    (by intro row h; simp [stBoth, Option.mem_def] at h; subst h; norm_num)
    (by intro row h; simp [stBoth, Option.mem_def] at h; subst h; norm_num)

/-- C5: with quantity > 0 (and price > 0), every call — BUY or SELL,
either asset class, successful or rejected — preserves the invariant
that a row exists only with strictly positive quantity, and a SELL of
exactly the held quantity deletes the row, so the position reads back
as absent. -/
theorem C5_row_iff_positive (q p : ℚ) (hq : 0 < q) (hp : 0 < p)
    (st : DBState) (sym : String) (b : Bool) :
    (posInvEquity st → posInvEquity (update_portfolio st sym q p b).2) ∧
    (posInvCrypto st → posInvCrypto (update_crypto_portfolio st q p b).2) ∧
    (∀ row, st.portfolio = some row → row.shares = q →
      (update_portfolio st sym q p false).2.portfolio = none) ∧
    (∀ row, st.crypto_portfolio = some row → row.crypto_amount = q →
      (update_crypto_portfolio st q p false).2.crypto_portfolio = none) := by
  refine ⟨?_, ?_, ?_, ?_⟩
  · intro hinv row hmem
    cases b with
    | true =>
      cases he : st.portfolio with
      | none =>
        simp [update_portfolio, he, Option.mem_def] at hmem
        rw [← hmem]
        exact hq
      | some r =>
        have hr : 0 < r.shares := hinv r (by simp [he])
        simp [update_portfolio, he, Option.mem_def] at hmem
        rw [← hmem]
        exact add_pos hr hq
    | false =>
      cases he : st.portfolio with
      | none => simp [update_portfolio, he, Option.mem_def] at hmem
      | some r =>
        have hr : 0 < r.shares := hinv r (by simp [he])
        by_cases hle : q ≤ r.shares
        · by_cases hpos : 0 < r.shares - q
          · simp [update_portfolio, he, hle, hpos, Option.mem_def] at hmem
            rw [← hmem]
            exact hpos
          · simp [update_portfolio, he, hle, hpos, Option.mem_def] at hmem
        · simp [update_portfolio, he, hle, Option.mem_def] at hmem
          rw [← hmem]
          exact hr
  · intro hinv row hmem
    cases b with
    | true =>
      cases he : st.crypto_portfolio with
      | none =>
        simp [update_crypto_portfolio, he, Option.mem_def] at hmem
        rw [← hmem]
        exact hq
      | some r =>
        have hr : 0 < r.crypto_amount := hinv r (by simp [he])
        simp [update_crypto_portfolio, he, Option.mem_def] at hmem
        rw [← hmem]
        exact add_pos hr hq
    | false =>
      cases he : st.crypto_portfolio with
      | none => simp [update_crypto_portfolio, he, Option.mem_def] at hmem
      | some r =>
        have hr : 0 < r.crypto_amount := hinv r (by simp [he])
        by_cases hle : q ≤ r.crypto_amount
        · by_cases hpos : 0 < r.crypto_amount - q
          · simp [update_crypto_portfolio, he, hle, hpos, Option.mem_def] at hmem
            rw [← hmem]
            exact hpos
          · simp [update_crypto_portfolio, he, hle, hpos, Option.mem_def] at hmem
        · simp [update_crypto_portfolio, he, hle, Option.mem_def] at hmem
          rw [← hmem]
          exact hr
  · intro row he hexact
    simp [update_portfolio, he, hexact]
  · intro row he hexact
    simp [update_crypto_portfolio, he, hexact]

/-- C5 witness: at quantity 10, price 200, selling the whole (10, 150)
position preserves the invariant and deletes both rows. -/
theorem C5_row_iff_positive_witness :
    (posInvEquity stBoth → posInvEquity (update_portfolio stBoth "AAPL" 10 200 false).2) ∧
    (posInvCrypto stBoth → posInvCrypto (update_crypto_portfolio stBoth 10 200 false).2) ∧
    (∀ row, stBoth.portfolio = some row → row.shares = 10 →
      (update_portfolio stBoth "AAPL" 10 200 false).2.portfolio = none) ∧
    (∀ row, stBoth.crypto_portfolio = some row → row.crypto_amount = 10 →
      (update_crypto_portfolio stBoth 10 200 false).2.crypto_portfolio = none) :=
  C5_row_iff_positive 10 200 (by norm_num) (by norm_num) stBoth "AAPL" false

/-- C6: a successful SELL that leaves a strictly positive remainder keeps
the stored average cost unchanged — the resulting row is exactly
(held − sold, old average cost) — in both asset classes. -/
theorem C6_sell_preserves_avg_cost (st : DBState) (sym : String) (q p : ℚ) :
    (∀ row, st.portfolio = some row → q < row.shares →
      (update_portfolio st sym q p false).1 = true ∧
      (update_portfolio st sym q p false).2.portfolio =
        some ⟨row.shares - q, row.avg_price⟩) ∧
    (∀ row, st.crypto_portfolio = some row → q < row.crypto_amount →
      (update_crypto_portfolio st q p false).1 = true ∧
      (update_crypto_portfolio st q p false).2.crypto_portfolio =
        some ⟨row.crypto_amount - q, row.avg_price⟩) := by
  constructor
  · intro row he hlt
    have hle : q ≤ row.shares := le_of_lt hlt
    have hpos : 0 < row.shares - q := sub_pos.mpr hlt
    simp [update_portfolio, he, hle, hpos]
  · intro row he hlt
    have hle : q ≤ row.crypto_amount := le_of_lt hlt
    have hpos : 0 < row.crypto_amount - q := sub_pos.mpr hlt
    simp [update_crypto_portfolio, he, hle, hpos]

/-- C6 witness: selling 4 of 10 held units at 200 leaves rows
(6, avg 150) in both tables. -/
theorem C6_sell_preserves_avg_cost_witness :
    (update_portfolio stBoth "AAPL" 4 200 false).1 = true ∧
    (update_portfolio stBoth "AAPL" 4 200 false).2.portfolio = some ⟨6, 150⟩ ∧
    (update_crypto_portfolio stBoth 4 200 false).1 = true ∧
    (update_crypto_portfolio stBoth 4 200 false).2.crypto_portfolio =
      some ⟨6, 150⟩ := by
  have h1 := (C6_sell_preserves_avg_cost stBoth "AAPL" 4 200).1 ⟨10, 150⟩
    (by simp [stBoth]) (by norm_num)
  have h2 := (C6_sell_preserves_avg_cost stBoth "AAPL" 4 200).2 ⟨10, 150⟩
    (by simp [stBoth]) (by norm_num)
  refine ⟨h1.1, ?_, h2.1, ?_⟩
  · rw [h1.2]; norm_num
  · rw [h2.2]; norm_num

/-- A single BUY through `update_portfolio` adds exactly the bought
quantity to the held shares, whether the row existed or not. -/
theorem buy_adds_shares (st : DBState) (sym : String) (q p : ℚ) :
    portfolioShares (update_portfolio st sym q p true).2 =
      portfolioShares st + q := by
  cases he : st.portfolio <;>
    simp [update_portfolio, portfolioShares, he]

/-- Folding a list of BUY orders adds the sum of their quantities to the
held shares. -/
theorem runBuys_shares (sym : String) (orders : List (ℚ × ℚ)) :
    ∀ st : DBState, portfolioShares (runBuys st sym orders) =
      portfolioShares st + (orders.map Prod.fst).sum := by
  induction orders with
  | nil => intro st; simp [runBuys]
  | cons o rest ih =>
    intro st
    have hstep := buy_adds_shares st sym o.1 o.2
    calc portfolioShares (runBuys st sym (o :: rest))
        = portfolioShares (runBuys (update_portfolio st sym o.1 o.2 true).2 sym rest) := by
          simp [runBuys]
      _ = portfolioShares st + o.1 + (rest.map Prod.fst).sum := by
          rw [ih, hstep]
      _ = portfolioShares st + ((o :: rest).map Prod.fst).sum := by
          simp [add_assoc]

/-- C7: starting from an absent position, a sequence of BUY orders of
positive quantities leaves the position holding exactly the sum of the
bought quantities (exact rational arithmetic). -/
theorem C7_buys_sum_quantities (st : DBState) (sym : String)
    (orders : List (ℚ × ℚ)) (h0 : st.portfolio = none)
    (hpos : ∀ o ∈ orders, 0 < o.1) :
    portfolioShares (runBuys st sym orders) = (orders.map Prod.fst).sum := by
  have h := runBuys_shares sym orders st
  rw [h]
  simp [portfolioShares, h0]

/-- C7 witness: buying 10 @ 150 then 5 @ 180 from a fresh state leaves
15 shares held. -/
theorem C7_buys_sum_quantities_witness :
    portfolioShares (runBuys stFresh "AAPL" [(10, 150), (5, 180)]) =
      ([((10 : ℚ), (150 : ℚ)), (5, 180)].map Prod.fst).sum := by
  refine C7_buys_sum_quantities stFresh "AAPL" [(10, 150), (5, 180)] ?_ ?_
  · simp [stFresh]
  · intro o ho
    simp at ho
    rcases ho with h | h <;> rw [h] <;> norm_num

/-- C8: a BUY through `update_portfolio` always succeeds and debits the
balance by quantity*price, with no solvency floor: in particular a user
holding 100 who buys 10 shares @ 150 ends with the strictly negative
balance −1400. -/
theorem C8_no_solvency_floor :
    (∀ st sym (q p : ℚ), (update_portfolio st sym q p true).1 = true ∧
      (update_portfolio st sym q p true).2.balance = st.balance - q * p) ∧
    (update_portfolio ⟨none, none, [], 100⟩ "AAPL" 10 150 true).2.balance < 0 := by
  constructor
  · intro st sym q p
    cases he : st.portfolio <;>
      simp [update_portfolio, he, sub_eq_add_neg]
  · norm_num [update_portfolio]

/-- C9: a crypto BUY into an existing position stores exactly the
volume-weighted average cost `(q0*a0 + q*p)/(q0 + q)`; at the inputs of
C1 the crypto and equity paths therefore store different averages
(160 versus 190). -/
theorem C9_crypto_weighted_avg (st : DBState) (q p : ℚ) (row : CryptoRow)
    (he : st.crypto_portfolio = some row) :
    (update_crypto_portfolio st q p true).2.crypto_portfolio =
      some ⟨row.crypto_amount + q,
        (row.crypto_amount * row.avg_price + q * p) / (row.crypto_amount + q)⟩ ∧
    (update_crypto_portfolio stBoth 5 180 true).2.crypto_portfolio.map
        CryptoRow.avg_price ≠
      (update_portfolio stBoth "AAPL" 5 180 true).2.portfolio.map
        PortfolioRow.avg_price := by
  constructor
  · simp [update_crypto_portfolio, he]
    ring_nf
  · norm_num [update_crypto_portfolio, update_portfolio, stBoth]

/-- C9 witness: at the concrete position (10, 150) and a BUY of 5 @ 180
the crypto path stores (15, 160), unlike the equity path's 190. -/
theorem C9_crypto_weighted_avg_witness :
    (update_crypto_portfolio stBoth 5 180 true).2.crypto_portfolio =
      some ⟨(10 : ℚ) + 5, ((10 : ℚ) * 150 + 5 * 180) / (10 + 5)⟩ ∧
    (update_crypto_portfolio stBoth 5 180 true).2.crypto_portfolio.map
        CryptoRow.avg_price ≠
      (update_portfolio stBoth "AAPL" 5 180 true).2.portfolio.map
        PortfolioRow.avg_price := by
  have h := C9_crypto_weighted_avg stBoth 5 180 ⟨10, 150⟩ (by simp [stBoth])
  exact ⟨h.1, h.2⟩

/-- C10: with no existing row and a non-negative balance, a 0-share BUY
submitted through the trading page's buy form passes the funds check,
calls `update_portfolio`, returns success, and inserts a portfolio row
with 0 shares — a zero-quantity row is reachable from the UI. -/
theorem C10_zero_share_buy (st : DBState) (sym : String) (p : ℚ)
    (h0 : st.portfolio = none) (hb : 0 ≤ st.balance) :
    (update_portfolio st sym 0 p true).1 = true ∧
    (update_portfolio st sym 0 p true).2.portfolio = some ⟨0, p⟩ ∧
    trading_buy st sym 0 p = update_portfolio st sym 0 p true := by
  refine ⟨?_, ?_, ?_⟩
  · simp [update_portfolio, h0]
  · simp [update_portfolio, h0]
  · simp [trading_buy, not_lt.mpr hb]

/-- C10 witness: a fresh user buying 0 shares @ 180 gets a (0, 180) row
through the trading page. -/
theorem C10_zero_share_buy_witness :
    (update_portfolio stFresh "AAPL" 0 180 true).1 = true ∧
    (update_portfolio stFresh "AAPL" 0 180 true).2.portfolio = some ⟨0, 180⟩ ∧
    trading_buy stFresh "AAPL" 0 180 = update_portfolio stFresh "AAPL" 0 180 true :=
  C10_zero_share_buy stFresh "AAPL" 180 (by simp [stFresh]) (by norm_num [stFresh])
